import Mathlib

/-!
Shallow embedding of `src/hardhat/contracts/InvoiceEscrow.sol` (Solidity ^0.8.28,
`contract InvoiceEscrow is Ownable`).

Modelling choices:
* `Address` is `Nat`; `0` is the zero address `address(0)`.
* The Solidity mapping `mapping(uint256 => Invoice) public invoices` is a total
  function `Nat → Invoice` whose unwritten slots hold the all-zero struct, exactly
  as an EVM mapping does.
* Every external function is a Lean function from the pre-state (plus `msg.sender`,
  `msg.value`, arguments) to `Except Err Ledger`: a `require` failure or a revert
  returns `.error e`, and by EVM transaction semantics the caller then observes the
  unchanged pre-state (`applyOp` below realises this revert convention).
* The low-level value transfer `recipient.call{value: amount}("")` is an oracle
  `ValuePort : Ledger → Address → Nat → Bool` that is handed the ledger state at
  the moment of the call (so a reentrant observer sees exactly that state) and
  reports success or failure, as the contract's checks-effects-interactions
  comment describes.
* `uint256` arithmetic: the only arithmetic the contract performs is
  `_invoiceCounter++`, which Solidity 0.8 checks; the embedding reverts with
  `.counterOverflow` when the increment would reach `2 ^ 256`.
* `msg.sender` is never `address(0)` on Ethereum (no transaction can be signed by
  the zero address); the reachability relation `Reach` records this environment
  fact as a side condition on every step, and likewise the Ownable constructor's
  rejection of a zero initial owner.
-/

namespace InvoiceEscrow

abbrev Address := Nat

/-- `enum InvoiceStatus { CREATED, FUNDED, COMPLETED, PAID, CANCELLED }`. -/
inductive InvoiceStatus where
  | CREATED
  | FUNDED
  | COMPLETED
  | PAID
  | CANCELLED
deriving DecidableEq, Repr

/-- The ordinal wire encoding of the status enum (CREATED=0 … CANCELLED=4). -/
def InvoiceStatus.toOrdinal : InvoiceStatus → Nat
  | .CREATED => 0
  | .FUNDED => 1
  | .COMPLETED => 2
  | .PAID => 3
  | .CANCELLED => 4

/-- `struct Invoice` of the contract. -/
structure Invoice where
  invoiceId : Nat
  client : Address
  freelancer : Address
  amount : Nat
  description : String
  status : InvoiceStatus
deriving DecidableEq, Repr

/-- The all-zero struct an EVM mapping returns for a never-written key. -/
def Invoice.zeroSlot : Invoice :=
  { invoiceId := 0, client := 0, freelancer := 0, amount := 0,
    description := "", status := .CREATED }

/-- Contract storage: the invoice mapping, the private id counter, the Ownable
owner (the arbiter), and the contract's ETH balance (the escrow holdings). -/
structure Ledger where
  invoices : Nat → Invoice
  invoiceCounter : Nat
  owner : Address
  balance : Nat

/-- State right after `constructor(initialOwner)`: empty mapping, counter 0. -/
def Ledger.init (initialOwner : Address) : Ledger :=
  { invoices := fun _ => Invoice.zeroSlot, invoiceCounter := 0,
    owner := initialOwner, balance := 0 }

/-- Point update of the invoice mapping: the EVM storage write `invoices[k] = v`. -/
def mapWrite (m : Nat → Invoice) (k : Nat) (v : Invoice) : Nat → Invoice :=
  fun j => if j = k then v else m j

/-- Write only the `status` field of the invoice stored at `id`, like the
Solidity storage write `invoice.status = s`. -/
def Ledger.setStatus (l : Ledger) (id : Nat) (s : InvoiceStatus) : Ledger :=
  { l with invoices := mapWrite l.invoices id { l.invoices id with status := s } }

/-- One constructor per distinct revert reason of the contract, in source order:
the `require` messages of each function, the checked-arithmetic panic, and the
`OwnableUnauthorizedAccount` error raised by the `onlyOwner` modifier. -/
inductive Err where
  | invalidFreelancerAddress
  | amountMustBePositive
  | descriptionEmpty
  | counterOverflow
  | invoiceDoesNotExist
  | onlyClientCanFund
  | invoiceMustBeCreated
  | sentAmountMismatch
  | onlyFreelancerCanMark
  | invoiceMustBeFunded
  | onlyClientCanRelease
  | invoiceMustBeCompleted
  | paymentTransferFailed
  | onlyClientCanCancel
  | invoiceMustBeFundedOrCompleted
  | disputeTransferFailed
  | ownableUnauthorizedAccount
deriving DecidableEq, Repr

/-- The specification's error taxonomy (§7 of the spec). -/
inductive ErrKind where
  | notFound
  | invalidArgument
  | unauthorized
  | invalidState
  | transferFailed
  | arithmeticOverflow
deriving DecidableEq, Repr

/-- Classify each concrete revert reason under the spec's error kinds. -/
def Err.kind : Err → ErrKind
  | .invalidFreelancerAddress => .invalidArgument
  | .amountMustBePositive => .invalidArgument
  | .descriptionEmpty => .invalidArgument
  | .counterOverflow => .arithmeticOverflow
  | .invoiceDoesNotExist => .notFound
  | .onlyClientCanFund => .unauthorized
  | .invoiceMustBeCreated => .invalidState
  | .sentAmountMismatch => .invalidArgument
  | .onlyFreelancerCanMark => .unauthorized
  | .invoiceMustBeFunded => .invalidState
  | .onlyClientCanRelease => .unauthorized
  | .invoiceMustBeCompleted => .invalidState
  | .paymentTransferFailed => .transferFailed
  | .onlyClientCanCancel => .unauthorized
  | .invoiceMustBeFundedOrCompleted => .invalidState
  | .disputeTransferFailed => .transferFailed
  | .ownableUnauthorizedAccount => .unauthorized

/-- The outcome of `recipient.call{value: amount}("")`, as a function of the
ledger state at the moment of the call, the recipient, and the amount. -/
abbrev ValuePort := Ledger → Address → Nat → Bool

/-- `function createInvoice(address freelancer, uint256 amount, string memory
description) external returns (uint256)`. -/
def createInvoice (l : Ledger) (sender : Address) (freelancer : Address)
    (amount : Nat) (description : String) : Except Err (Ledger × Nat) :=
  if freelancer = 0 then .error .invalidFreelancerAddress
  else if amount = 0 then .error .amountMustBePositive
  else if description.length = 0 then .error .descriptionEmpty
  else if l.invoiceCounter + 1 ≥ 2 ^ 256 then .error .counterOverflow
  else
    let invoiceId := l.invoiceCounter
    let inv : Invoice :=
      { invoiceId := invoiceId, client := sender, freelancer := freelancer,
        amount := amount, description := description, status := .CREATED }
    let l2 : Ledger :=
      { l with
        invoices := mapWrite l.invoices invoiceId inv
        invoiceCounter := l.invoiceCounter + 1 }
    .ok (l2, invoiceId)

/-- `function fundInvoice(uint256 invoiceId) external payable`; `msgValue` is
`msg.value`, credited to the contract balance when the call does not revert. -/
def fundInvoice (l : Ledger) (sender : Address) (invoiceId : Nat)
    (msgValue : Nat) : Except Err Ledger :=
  let invoice := l.invoices invoiceId
  if invoice.client = 0 then .error .invoiceDoesNotExist
  else if invoice.client ≠ sender then .error .onlyClientCanFund
  else if invoice.status ≠ .CREATED then .error .invoiceMustBeCreated
  else if msgValue ≠ invoice.amount then .error .sentAmountMismatch
  else .ok { l.setStatus invoiceId InvoiceStatus.FUNDED with
             balance := l.balance + msgValue }

/-- `function markInvoiceCompleted(uint256 invoiceId) external`; note the source
performs its existence check on the `freelancer` field here. -/
def markInvoiceCompleted (l : Ledger) (sender : Address) (invoiceId : Nat) :
    Except Err Ledger :=
  let invoice := l.invoices invoiceId
  if invoice.freelancer = 0 then .error .invoiceDoesNotExist
  else if invoice.freelancer ≠ sender then .error .onlyFreelancerCanMark
  else if invoice.status ≠ .FUNDED then .error .invoiceMustBeFunded
  else .ok (l.setStatus invoiceId .COMPLETED)

/-- `function releasePayment(uint256 invoiceId) external`: after the checks the
status is written to PAID, then the low-level call runs against that mutated
state, and `require(success)` reverts the transaction when it fails. -/
def releasePayment (l : Ledger) (port : ValuePort) (sender : Address)
    (invoiceId : Nat) : Except Err Ledger :=
  let invoice := l.invoices invoiceId
  if invoice.client = 0 then .error .invoiceDoesNotExist
  else if invoice.client ≠ sender then .error .onlyClientCanRelease
  else if invoice.status ≠ .COMPLETED then .error .invoiceMustBeCompleted
  else
    let amount := invoice.amount
    let freelancer := invoice.freelancer
    let mutated := l.setStatus invoiceId .PAID
    if port mutated freelancer amount then
      .ok { mutated with balance := l.balance - amount }
    else .error .paymentTransferFailed

/-- `function cancelInvoice(uint256 invoiceId) external`. -/
def cancelInvoice (l : Ledger) (sender : Address) (invoiceId : Nat) :
    Except Err Ledger :=
  let invoice := l.invoices invoiceId
  if invoice.client = 0 then .error .invoiceDoesNotExist
  else if invoice.client ≠ sender then .error .onlyClientCanCancel
  else if invoice.status ≠ .CREATED then .error .invoiceMustBeCreated
  else .ok (l.setStatus invoiceId .CANCELLED)

/-- `function resolveDispute(uint256 invoiceId, bool releaseToFreelancer)
external onlyOwner`: the `onlyOwner` modifier runs before the function body, so
its check precedes the existence check; the status write again precedes the
low-level call. -/
def resolveDispute (l : Ledger) (port : ValuePort) (sender : Address)
    (invoiceId : Nat) (releaseToFreelancer : Bool) : Except Err Ledger :=
  if sender ≠ l.owner then .error .ownableUnauthorizedAccount
  else
    let invoice := l.invoices invoiceId
    if invoice.client = 0 then .error .invoiceDoesNotExist
    else if ¬ (invoice.status = .FUNDED ∨ invoice.status = .COMPLETED) then
      .error .invoiceMustBeFundedOrCompleted
    else
      let amount := invoice.amount
      let recipient := if releaseToFreelancer then invoice.freelancer
                       else invoice.client
      let newStatus := if releaseToFreelancer then InvoiceStatus.PAID
                       else InvoiceStatus.CANCELLED
      let mutated := l.setStatus invoiceId newStatus
      if port mutated recipient amount then
        .ok { mutated with balance := l.balance - amount }
      else .error .disputeTransferFailed

/-- `function getInvoice(uint256 invoiceId) external view`. -/
def getInvoice (l : Ledger) (invoiceId : Nat) : Except Err Invoice :=
  if (l.invoices invoiceId).client = 0 then .error .invoiceDoesNotExist
  else .ok (l.invoices invoiceId)

/-- `function getInvoiceStatus(uint256 invoiceId) external view`. -/
def getInvoiceStatus (l : Ledger) (invoiceId : Nat) : Except Err InvoiceStatus :=
  if (l.invoices invoiceId).client = 0 then .error .invoiceDoesNotExist
  else .ok (l.invoices invoiceId).status

/-- `function getTotalInvoices() external view`. -/
def getTotalInvoices (l : Ledger) : Nat :=
  l.invoiceCounter

/-- One external transaction against the contract: the five transition calls,
`createInvoice`, and a bare ETH deposit through `receive()`. -/
inductive Op where
  | create (sender : Address) (freelancer : Address) (amount : Nat)
      (description : String)
  | fund (sender : Address) (id : Nat) (value : Nat)
  | complete (sender : Address) (id : Nat)
  | release (sender : Address) (id : Nat)
  | cancel (sender : Address) (id : Nat)
  | resolve (sender : Address) (id : Nat) (toFreelancer : Bool)
  | deposit (sender : Address) (value : Nat)
deriving DecidableEq, Repr

/-- `msg.sender` of a transaction. -/
def Op.sender : Op → Address
  | .create s _ _ _ => s
  | .fund s _ _ => s
  | .complete s _ => s
  | .release s _ => s
  | .cancel s _ => s
  | .resolve s _ _ => s
  | .deposit s _ => s

/-- A committed invocation of the value-transfer primitive: `amount` wei paid
out of escrow to `recipient` on behalf of invoice `id`. -/
inductive Ev where
  | payout (id : Nat) (recipient : Address) (amount : Nat)
deriving DecidableEq, Repr

/-- How many committed payouts the history holds for invoice `id`. -/
def payoutCount (id : Nat) : List Ev → Nat
  | [] => 0
  | .payout j _ _ :: es => (if j = id then 1 else 0) + payoutCount id es

/-- Contract storage together with the history of committed payouts. -/
structure Config where
  ledger : Ledger
  events : List Ev

/-- Deployment state: fresh ledger, no payout ever performed. -/
def Config.init (initialOwner : Address) : Config :=
  { ledger := Ledger.init initialOwner, events := [] }

/-- Transaction semantics: run one external call against the configuration.
A reverted call (`.error`) leaves the entire pre-state observable, including
any value it tried to move; a committed call installs the new ledger and, for
`releasePayment` and `resolveDispute`, appends the payout it performed. -/
def applyOp (port : ValuePort) (c : Config) : Op → Config
  | .create s f a d =>
    match createInvoice c.ledger s f a d with
    | .ok (l2, _) => { ledger := l2, events := c.events }
    | .error _ => c
  | .fund s id v =>
    match fundInvoice c.ledger s id v with
    | .ok l2 => { ledger := l2, events := c.events }
    | .error _ => c
  | .complete s id =>
    match markInvoiceCompleted c.ledger s id with
    | .ok l2 => { ledger := l2, events := c.events }
    | .error _ => c
  | .release s id =>
    match releasePayment c.ledger port s id with
    | .ok l2 =>
      { ledger := l2
        events := c.events ++
          [Ev.payout id (c.ledger.invoices id).freelancer
            (c.ledger.invoices id).amount] }
    | .error _ => c
  | .cancel s id =>
    match cancelInvoice c.ledger s id with
    | .ok l2 => { ledger := l2, events := c.events }
    | .error _ => c
  | .resolve s id b =>
    match resolveDispute c.ledger port s id b with
    | .ok l2 =>
      { ledger := l2
        events := c.events ++
          [Ev.payout id
            (if b then (c.ledger.invoices id).freelancer
             else (c.ledger.invoices id).client)
            (c.ledger.invoices id).amount] }
    | .error _ => c
  | .deposit _ v =>
    { ledger := { c.ledger with balance := c.ledger.balance + v }
      events := c.events }

/-- Reachable configurations: deployment (OpenZeppelin `Ownable` rejects a zero
initial owner) followed by any sequence of transactions, each carrying the EVM
guarantee that `msg.sender` is never the zero address; the external call made
by each transaction may behave arbitrarily (`port` is universally chosen). -/
inductive Reach : Config → Prop where
  | init (initialOwner : Address) (h : initialOwner ≠ 0) :
      Reach (Config.init initialOwner)
  | step (c : Config) (port : ValuePort) (op : Op) (h : Reach c)
      (hs : op.sender ≠ 0) : Reach (applyOp port c op)

/-- The ledger produced by a successful `createInvoice`. -/
def createdLedger (l : Ledger) (s f : Address) (a : Nat) (d : String) :
    Ledger :=
  { l with
    invoices := mapWrite l.invoices l.invoiceCounter
      { invoiceId := l.invoiceCounter, client := s, freelancer := f,
        amount := a, description := d, status := .CREATED }
    invoiceCounter := l.invoiceCounter + 1 }

/-- Well-formedness of one created invoice record under its mapping key. -/
def InvWF (inv : Invoice) (id : Nat) : Prop :=
  inv.invoiceId = id ∧ inv.client ≠ 0 ∧ inv.freelancer ≠ 0 ∧
  0 < inv.amount ∧ 0 < inv.description.length

/-- Storage invariant: keys below the counter hold well-formed created
invoices, keys at or above it still hold the all-zero slot. -/
def LedgerInv (l : Ledger) : Prop :=
  (∀ id, id < l.invoiceCounter → InvWF (l.invoices id) id) ∧
  (∀ id, l.invoiceCounter ≤ id → l.invoices id = Invoice.zeroSlot)

/-- How many committed payouts a status admits: exactly one for PAID, at most
one for CANCELLED (dispute refund pays, voluntary cancel does not), none in
the non-terminal states. -/
def statusBound : InvoiceStatus → Nat → Prop
  | .PAID, n => n = 1
  | .CANCELLED, n => n ≤ 1
  | _, n => n = 0

/-- History invariant: payout count of every invoice is bounded by its status. -/
def PayoutInv (c : Config) : Prop :=
  ∀ id, statusBound (c.ledger.invoices id).status (payoutCount id c.events)

/-- The full reachability invariant. -/
def Inv (c : Config) : Prop :=
  LedgerInv c.ledger ∧ PayoutInv c

/-- Frame of a status transition on invoice `id`: every field of the target
record except `status` is preserved, every other slot is untouched, and the
counter and owner are untouched (so no record is ever deleted). -/
def Frame (l l2 : Ledger) (id : Nat) : Prop :=
  (l2.invoices id).invoiceId = (l.invoices id).invoiceId ∧
  (l2.invoices id).client = (l.invoices id).client ∧
  (l2.invoices id).freelancer = (l.invoices id).freelancer ∧
  (l2.invoices id).amount = (l.invoices id).amount ∧
  (l2.invoices id).description = (l.invoices id).description ∧
  (∀ j, j ≠ id → l2.invoices j = l.invoices j) ∧
  l2.invoiceCounter = l.invoiceCounter ∧
  l2.owner = l.owner

/-- Run a list of `createInvoice` requests (sender, freelancer, amount,
description) in order, failing on the first revert, and collect the ids the
calls return. -/
def runCreates (l : Ledger) :
    List (Address × Address × Nat × String) → Except Err (Ledger × List Nat)
  | [] => .ok (l, [])
  | r :: rs =>
    match createInvoice l r.1 r.2.1 r.2.2.1 r.2.2.2 with
    | .error e => .error e
    | .ok (l2, id) =>
      match runCreates l2 rs with
      | .error e => .error e
      | .ok (l3, ids) => .ok (l3, id :: ids)

/-- A transfer environment in which every low-level call succeeds. -/
def portTrue : ValuePort := fun _ _ _ => true

/-- A transfer environment in which every low-level call fails. -/
def portFalse : ValuePort := fun _ _ _ => false

/-- Demo run (spec §8 scenario): owner 1; client 2 creates invoice 0 for
freelancer 3 over 5 wei, funds it, 3 completes it, 2 releases it. -/
def demo0 : Config := Config.init 1

def demo1 : Config := applyOp portTrue demo0 (.create 2 3 5 "web work")

def demo2 : Config := applyOp portTrue demo1 (.fund 2 0 5)

def demo3 : Config := applyOp portTrue demo2 (.complete 3 0)

def demo4 : Config := applyOp portTrue demo3 (.release 2 0)

/-- Self-dealing run: principal 1 is both client and freelancer. -/
def selfC0 : Config := Config.init 7

def selfC1 : Config := applyOp portTrue selfC0 (.create 1 1 5 "self")

def selfC2 : Config := applyOp portTrue selfC1 (.fund 1 0 5)

def selfC3 : Config := applyOp portTrue selfC2 (.complete 1 0)

def selfC4 : Config := applyOp portTrue selfC3 (.release 1 0)

/-- Two concrete creation requests for exercising `runCreates`. -/
def demoReqs : List (Address × Address × Nat × String) :=
  [(2, 3, 5, "a"), (4, 5, 7, "b")]

/-! ### Frame lemmas for the storage primitives -/

@[simp] theorem mapWrite_eq (m : Nat → Invoice) (k : Nat) (v : Invoice) :
    mapWrite m k v k = v := by
  simp [mapWrite]

theorem mapWrite_ne (m : Nat → Invoice) (k : Nat) (v : Invoice) {j : Nat}
    (h : j ≠ k) : mapWrite m k v j = m j := by
  simp [mapWrite, h]

@[simp] theorem setStatus_invoices_eq (l : Ledger) (id : Nat)
    (s : InvoiceStatus) :
    (l.setStatus id s).invoices id = { l.invoices id with status := s } := by
  simp [Ledger.setStatus]

theorem setStatus_invoices_ne (l : Ledger) (id : Nat) (s : InvoiceStatus)
    {j : Nat} (h : j ≠ id) : (l.setStatus id s).invoices j = l.invoices j := by
  simp [Ledger.setStatus, mapWrite, h]

@[simp] theorem setStatus_counter (l : Ledger) (id : Nat) (s : InvoiceStatus) :
    (l.setStatus id s).invoiceCounter = l.invoiceCounter := rfl

@[simp] theorem setStatus_owner (l : Ledger) (id : Nat) (s : InvoiceStatus) :
    (l.setStatus id s).owner = l.owner := rfl

@[simp] theorem setStatus_balance (l : Ledger) (id : Nat) (s : InvoiceStatus) :
    (l.setStatus id s).balance = l.balance := rfl

/-! ### Success characterizations of the six mutating entry points -/

theorem createInvoice_ok_iff {l : Ledger} {s f : Address} {a : Nat}
    {d : String} {l2 : Ledger} {rid : Nat} :
    createInvoice l s f a d = .ok (l2, rid) ↔
      (f ≠ 0 ∧ a ≠ 0 ∧ d.length ≠ 0 ∧ ¬ l.invoiceCounter + 1 ≥ 2 ^ 256 ∧
       createdLedger l s f a d = l2 ∧ l.invoiceCounter = rid) := by
  simp only [createInvoice, createdLedger]
  split_ifs with h1 h2 h3 h4 <;> simp_all [not_not]

theorem fundInvoice_ok_iff {l : Ledger} {s : Address} {id v : Nat}
    {l2 : Ledger} :
    fundInvoice l s id v = .ok l2 ↔
      ((l.invoices id).client ≠ 0 ∧ (l.invoices id).client = s ∧
       (l.invoices id).status = .CREATED ∧ v = (l.invoices id).amount ∧
       { l.setStatus id InvoiceStatus.FUNDED with
         balance := l.balance + v } = l2) := by
  simp only [fundInvoice]
  split_ifs with h1 h2 h3 h4 <;> simp_all [not_not]

theorem markInvoiceCompleted_ok_iff {l : Ledger} {s : Address} {id : Nat}
    {l2 : Ledger} :
    markInvoiceCompleted l s id = .ok l2 ↔
      ((l.invoices id).freelancer ≠ 0 ∧ (l.invoices id).freelancer = s ∧
       (l.invoices id).status = .FUNDED ∧
       l.setStatus id InvoiceStatus.COMPLETED = l2) := by
  simp only [markInvoiceCompleted]
  split_ifs with h1 h2 h3 <;> simp_all [not_not]

theorem releasePayment_ok_iff {l : Ledger} {port : ValuePort} {s : Address}
    {id : Nat} {l2 : Ledger} :
    releasePayment l port s id = .ok l2 ↔
      ((l.invoices id).client ≠ 0 ∧ (l.invoices id).client = s ∧
       (l.invoices id).status = .COMPLETED ∧
       port (l.setStatus id InvoiceStatus.PAID) (l.invoices id).freelancer
         (l.invoices id).amount = true ∧
       { l.setStatus id InvoiceStatus.PAID with
         balance := l.balance - (l.invoices id).amount } = l2) := by
  simp only [releasePayment]
  split_ifs with h1 h2 h3 h4 <;> simp_all [not_not]

theorem cancelInvoice_ok_iff {l : Ledger} {s : Address} {id : Nat}
    {l2 : Ledger} :
    cancelInvoice l s id = .ok l2 ↔
      ((l.invoices id).client ≠ 0 ∧ (l.invoices id).client = s ∧
       (l.invoices id).status = .CREATED ∧
       l.setStatus id InvoiceStatus.CANCELLED = l2) := by
  simp only [cancelInvoice]
  split_ifs with h1 h2 h3 <;> simp_all [not_not]

theorem resolveDispute_ok_iff {l : Ledger} {port : ValuePort} {s : Address}
    {id : Nat} {b : Bool} {l2 : Ledger} :
    resolveDispute l port s id b = .ok l2 ↔
      (s = l.owner ∧ (l.invoices id).client ≠ 0 ∧
       ((l.invoices id).status = .FUNDED ∨
        (l.invoices id).status = .COMPLETED) ∧
       port (l.setStatus id (if b then .PAID else .CANCELLED))
         (if b then (l.invoices id).freelancer else (l.invoices id).client)
         (l.invoices id).amount = true ∧
       { l.setStatus id (if b then .PAID else .CANCELLED) with
         balance := l.balance - (l.invoices id).amount } = l2) := by
  cases b <;>
    (simp only [resolveDispute, Bool.false_eq_true, if_true, if_false]
     split_ifs with h1 h2 h3 h4 <;> simp_all [not_not])

/-! ### Unfolding `applyOp` by the outcome of the underlying call -/

theorem applyOp_create_ok {c : Config} {port : ValuePort} {s f : Address}
    {a : Nat} {d : String} {l2 : Ledger} {rid : Nat}
    (h : createInvoice c.ledger s f a d = .ok (l2, rid)) :
    applyOp port c (.create s f a d) = { ledger := l2, events := c.events } := by
  simp [applyOp, h]

theorem applyOp_create_err {c : Config} {port : ValuePort} {s f : Address}
    {a : Nat} {d : String} {e : Err}
    (h : createInvoice c.ledger s f a d = .error e) :
    applyOp port c (.create s f a d) = c := by
  simp [applyOp, h]

theorem applyOp_fund_ok {c : Config} {port : ValuePort} {s : Address}
    {id v : Nat} {l2 : Ledger} (h : fundInvoice c.ledger s id v = .ok l2) :
    applyOp port c (.fund s id v) = { ledger := l2, events := c.events } := by
  simp [applyOp, h]

theorem applyOp_fund_err {c : Config} {port : ValuePort} {s : Address}
    {id v : Nat} {e : Err} (h : fundInvoice c.ledger s id v = .error e) :
    applyOp port c (.fund s id v) = c := by
  simp [applyOp, h]

theorem applyOp_complete_ok {c : Config} {port : ValuePort} {s : Address}
    {id : Nat} {l2 : Ledger} (h : markInvoiceCompleted c.ledger s id = .ok l2) :
    applyOp port c (.complete s id) = { ledger := l2, events := c.events } := by
  simp [applyOp, h]

theorem applyOp_complete_err {c : Config} {port : ValuePort} {s : Address}
    {id : Nat} {e : Err} (h : markInvoiceCompleted c.ledger s id = .error e) :
    applyOp port c (.complete s id) = c := by
  simp [applyOp, h]

theorem applyOp_release_ok {c : Config} {port : ValuePort} {s : Address}
    {id : Nat} {l2 : Ledger} (h : releasePayment c.ledger port s id = .ok l2) :
    applyOp port c (.release s id) =
      { ledger := l2
        events := c.events ++
          [Ev.payout id (c.ledger.invoices id).freelancer
            (c.ledger.invoices id).amount] } := by
  simp [applyOp, h]

theorem applyOp_release_err {c : Config} {port : ValuePort} {s : Address}
    {id : Nat} {e : Err} (h : releasePayment c.ledger port s id = .error e) :
    applyOp port c (.release s id) = c := by
  simp [applyOp, h]

theorem applyOp_cancel_ok {c : Config} {port : ValuePort} {s : Address}
    {id : Nat} {l2 : Ledger} (h : cancelInvoice c.ledger s id = .ok l2) :
    applyOp port c (.cancel s id) = { ledger := l2, events := c.events } := by
  simp [applyOp, h]

theorem applyOp_cancel_err {c : Config} {port : ValuePort} {s : Address}
    {id : Nat} {e : Err} (h : cancelInvoice c.ledger s id = .error e) :
    applyOp port c (.cancel s id) = c := by
  simp [applyOp, h]

theorem applyOp_resolve_ok {c : Config} {port : ValuePort} {s : Address}
    {id : Nat} {b : Bool} {l2 : Ledger}
    (h : resolveDispute c.ledger port s id b = .ok l2) :
    applyOp port c (.resolve s id b) =
      { ledger := l2
        events := c.events ++
          [Ev.payout id
            (if b then (c.ledger.invoices id).freelancer
             else (c.ledger.invoices id).client)
            (c.ledger.invoices id).amount] } := by
  simp [applyOp, h]

theorem applyOp_resolve_err {c : Config} {port : ValuePort} {s : Address}
    {id : Nat} {b : Bool} {e : Err}
    (h : resolveDispute c.ledger port s id b = .error e) :
    applyOp port c (.resolve s id b) = c := by
  simp [applyOp, h]

theorem applyOp_deposit {c : Config} {port : ValuePort} {s : Address}
    {v : Nat} :
    applyOp port c (.deposit s v) =
      { ledger := { c.ledger with balance := c.ledger.balance + v }
        events := c.events } := rfl

/-! ### The reachability invariant -/

theorem payoutCount_append (id j : Nat) (r : Address) (a : Nat)
    (es : List Ev) :
    payoutCount id (es ++ [Ev.payout j r a]) =
      payoutCount id es + (if j = id then 1 else 0) := by
  induction es with
  | nil => simp [payoutCount]
  | cons e es ih =>
    cases e with
    | payout j2 r2 a2 =>
      have hc : (Ev.payout j2 r2 a2 :: es) ++ [Ev.payout j r a] =
          Ev.payout j2 r2 a2 :: (es ++ [Ev.payout j r a]) := rfl
      rw [hc, payoutCount, payoutCount, ih]
      omega

theorem InvWF_status {inv : Invoice} {id : Nat} (st : InvoiceStatus)
    (h : InvWF inv id) : InvWF { inv with status := st } id := h

theorem lt_counter_of_client_ne {l : Ledger} (hL : LedgerInv l) {id : Nat}
    (hc : (l.invoices id).client ≠ 0) : id < l.invoiceCounter := by
  by_contra hlt
  exact hc (by rw [hL.2 id (le_of_not_lt hlt)]; rfl)

theorem lt_counter_of_freelancer_ne {l : Ledger} (hL : LedgerInv l) {id : Nat}
    (hc : (l.invoices id).freelancer ≠ 0) : id < l.invoiceCounter := by
  by_contra hlt
  exact hc (by rw [hL.2 id (le_of_not_lt hlt)]; rfl)

theorem LedgerInv_setStatus {l : Ledger} (hL : LedgerInv l) {id : Nat}
    (hid : id < l.invoiceCounter) (st : InvoiceStatus) :
    LedgerInv (l.setStatus id st) := by
  refine ⟨fun j hj => ?_, fun j hj => ?_⟩
  · by_cases hji : j = id
    · subst hji
      rw [setStatus_invoices_eq]
      exact InvWF_status st (hL.1 j (by simpa using hj))
    · rw [setStatus_invoices_ne _ _ _ hji]
      exact hL.1 j (by simpa using hj)
  · have hji : j ≠ id := by
      simp only [setStatus_counter] at hj
      omega
    rw [setStatus_invoices_ne _ _ _ hji]
    exact hL.2 j (by simpa using hj)

theorem LedgerInv_balance {l : Ledger} {b : Nat} (hL : LedgerInv l) :
    LedgerInv { l with balance := b } := hL

theorem Inv_create {c : Config} {s f : Address} {a : Nat} {d : String}
    {l2 : Ledger} {rid : Nat} (hI : Inv c) (hs : s ≠ 0)
    (hE : createInvoice c.ledger s f a d = .ok (l2, rid)) :
    Inv { ledger := l2, events := c.events } := by
  obtain ⟨hL, hP⟩ := hI
  rcases createInvoice_ok_iff.1 hE with ⟨hf, ha, hd, _, hl2, _⟩
  subst hl2
  constructor
  · refine ⟨fun j hj => ?_, fun j hj => ?_⟩
    · simp only [createdLedger] at hj ⊢
      by_cases hji : j = c.ledger.invoiceCounter
      · subst hji
        rw [mapWrite_eq]
        exact ⟨rfl, hs, hf, Nat.pos_of_ne_zero ha, Nat.pos_of_ne_zero hd⟩
      · rw [mapWrite_ne _ _ _ hji]
        exact hL.1 j (by omega)
    · simp only [createdLedger] at hj ⊢
      have hji : j ≠ c.ledger.invoiceCounter := by omega
      rw [mapWrite_ne _ _ _ hji]
      exact hL.2 j (by omega)
  · intro j
    simp only [createdLedger]
    by_cases hji : j = c.ledger.invoiceCounter
    · subst hji
      rw [mapWrite_eq]
      have h0 := hP c.ledger.invoiceCounter
      rw [hL.2 c.ledger.invoiceCounter (le_refl _)] at h0
      simpa [Invoice.zeroSlot, statusBound] using h0
    · rw [mapWrite_ne _ _ _ hji]
      exact hP j

theorem Inv_fund {c : Config} {s : Address} {id v : Nat} {l2 : Ledger}
    (hI : Inv c) (hE : fundInvoice c.ledger s id v = .ok l2) :
    Inv { ledger := l2, events := c.events } := by
  obtain ⟨hL, hP⟩ := hI
  rcases fundInvoice_ok_iff.1 hE with ⟨hc, _, hst, _, hl2⟩
  subst hl2
  have hid := lt_counter_of_client_ne hL hc
  refine ⟨LedgerInv_balance (LedgerInv_setStatus hL hid _), fun j => ?_⟩
  show statusBound ((c.ledger.setStatus id .FUNDED).invoices j).status
    (payoutCount j c.events)
  by_cases hji : j = id
  · subst hji
    rw [setStatus_invoices_eq]
    have h0 := hP j
    rw [hst] at h0
    exact h0
  · rw [setStatus_invoices_ne _ _ _ hji]
    exact hP j

theorem Inv_complete {c : Config} {s : Address} {id : Nat} {l2 : Ledger}
    (hI : Inv c) (hE : markInvoiceCompleted c.ledger s id = .ok l2) :
    Inv { ledger := l2, events := c.events } := by
  obtain ⟨hL, hP⟩ := hI
  rcases markInvoiceCompleted_ok_iff.1 hE with ⟨hfr, _, hst, hl2⟩
  subst hl2
  have hid := lt_counter_of_freelancer_ne hL hfr
  refine ⟨LedgerInv_setStatus hL hid _, fun j => ?_⟩
  show statusBound ((c.ledger.setStatus id .COMPLETED).invoices j).status
    (payoutCount j c.events)
  by_cases hji : j = id
  · subst hji
    rw [setStatus_invoices_eq]
    have h0 := hP j
    rw [hst] at h0
    exact h0
  · rw [setStatus_invoices_ne _ _ _ hji]
    exact hP j

theorem Inv_cancel {c : Config} {s : Address} {id : Nat} {l2 : Ledger}
    (hI : Inv c) (hE : cancelInvoice c.ledger s id = .ok l2) :
    Inv { ledger := l2, events := c.events } := by
  obtain ⟨hL, hP⟩ := hI
  rcases cancelInvoice_ok_iff.1 hE with ⟨hc, _, hst, hl2⟩
  subst hl2
  have hid := lt_counter_of_client_ne hL hc
  refine ⟨LedgerInv_setStatus hL hid _, fun j => ?_⟩
  show statusBound ((c.ledger.setStatus id .CANCELLED).invoices j).status
    (payoutCount j c.events)
  by_cases hji : j = id
  · subst hji
    rw [setStatus_invoices_eq]
    have h0 := hP j
    rw [hst] at h0
    have h0e : payoutCount j c.events = 0 := h0
    show payoutCount j c.events ≤ 1
    omega
  · rw [setStatus_invoices_ne _ _ _ hji]
    exact hP j

theorem Inv_release {c : Config} {port : ValuePort} {s : Address} {id : Nat}
    {l2 : Ledger} (hI : Inv c) (hE : releasePayment c.ledger port s id = .ok l2) :
    Inv { ledger := l2
          events := c.events ++
            [Ev.payout id (c.ledger.invoices id).freelancer
              (c.ledger.invoices id).amount] } := by
  obtain ⟨hL, hP⟩ := hI
  rcases releasePayment_ok_iff.1 hE with ⟨hc, _, hst, _, hl2⟩
  subst hl2
  have hid := lt_counter_of_client_ne hL hc
  refine ⟨LedgerInv_balance (LedgerInv_setStatus hL hid _), fun j => ?_⟩
  show statusBound ((c.ledger.setStatus id .PAID).invoices j).status
    (payoutCount j (c.events ++
      [Ev.payout id (c.ledger.invoices id).freelancer
        (c.ledger.invoices id).amount]))
  rw [payoutCount_append]
  by_cases hji : j = id
  · subst hji
    rw [setStatus_invoices_eq, if_pos rfl]
    have h0 := hP j
    rw [hst] at h0
    have h0e : payoutCount j c.events = 0 := h0
    show payoutCount j c.events + 1 = 1
    omega
  · rw [setStatus_invoices_ne _ _ _ hji, if_neg (Ne.symm hji), Nat.add_zero]
    exact hP j

theorem Inv_resolve {c : Config} {port : ValuePort} {s : Address} {id : Nat}
    {b : Bool} {l2 : Ledger} (hI : Inv c)
    (hE : resolveDispute c.ledger port s id b = .ok l2) :
    Inv { ledger := l2
          events := c.events ++
            [Ev.payout id
              (if b then (c.ledger.invoices id).freelancer
               else (c.ledger.invoices id).client)
              (c.ledger.invoices id).amount] } := by
  obtain ⟨hL, hP⟩ := hI
  rcases resolveDispute_ok_iff.1 hE with ⟨_, hc, hst, _, hl2⟩
  subst hl2
  have hid := lt_counter_of_client_ne hL hc
  refine ⟨LedgerInv_balance (LedgerInv_setStatus hL hid _), fun j => ?_⟩
  show statusBound
    ((c.ledger.setStatus id (if b then .PAID else .CANCELLED)).invoices j).status
    (payoutCount j (c.events ++
      [Ev.payout id
        (if b then (c.ledger.invoices id).freelancer
         else (c.ledger.invoices id).client)
        (c.ledger.invoices id).amount]))
  rw [payoutCount_append]
  by_cases hji : j = id
  · subst hji
    rw [setStatus_invoices_eq, if_pos rfl]
    have h0 := hP j
    have hz : payoutCount j c.events = 0 := by
      rcases hst with hst | hst <;> rw [hst] at h0 <;> exact h0
    cases b
    · show statusBound InvoiceStatus.CANCELLED (payoutCount j c.events + 1)
      show payoutCount j c.events + 1 ≤ 1
      omega
    · show statusBound InvoiceStatus.PAID (payoutCount j c.events + 1)
      show payoutCount j c.events + 1 = 1
      omega
  · rw [setStatus_invoices_ne _ _ _ hji, if_neg (Ne.symm hji), Nat.add_zero]
    exact hP j

theorem Inv_deposit {c : Config} {v : Nat} (hI : Inv c) :
    Inv { ledger := { c.ledger with balance := c.ledger.balance + v }
          events := c.events } :=
  ⟨LedgerInv_balance hI.1, hI.2⟩

/-! ### Failure characterizations -/

theorem error_of_no_ok {r : Except Err Ledger} (h : ∀ l2, r ≠ .ok l2) :
    ∃ e, r = .error e := by
  cases r with
  | error e => exact ⟨e, rfl⟩
  | ok l2 => exact absurd rfl (h l2)

theorem fundInvoice_err_status {l : Ledger} {s : Address} {id v : Nat}
    (h : (l.invoices id).status ≠ .CREATED) :
    ∃ e, fundInvoice l s id v = .error e :=
  error_of_no_ok fun _ hok =>
    h (fundInvoice_ok_iff.1 hok).2.2.1

theorem markInvoiceCompleted_err_status {l : Ledger} {s : Address} {id : Nat}
    (h : (l.invoices id).status ≠ .FUNDED) :
    ∃ e, markInvoiceCompleted l s id = .error e :=
  error_of_no_ok fun _ hok =>
    h (markInvoiceCompleted_ok_iff.1 hok).2.2.1

theorem releasePayment_err_status {l : Ledger} {port : ValuePort}
    {s : Address} {id : Nat} (h : (l.invoices id).status ≠ .COMPLETED) :
    ∃ e, releasePayment l port s id = .error e :=
  error_of_no_ok fun _ hok =>
    h (releasePayment_ok_iff.1 hok).2.2.1

theorem cancelInvoice_err_status {l : Ledger} {s : Address} {id : Nat}
    (h : (l.invoices id).status ≠ .CREATED) :
    ∃ e, cancelInvoice l s id = .error e :=
  error_of_no_ok fun _ hok =>
    h (cancelInvoice_ok_iff.1 hok).2.2.1

theorem resolveDispute_err_status {l : Ledger} {port : ValuePort}
    {s : Address} {id : Nat} {b : Bool}
    (h : ¬ ((l.invoices id).status = .FUNDED ∨
            (l.invoices id).status = .COMPLETED)) :
    ∃ e, resolveDispute l port s id b = .error e :=
  error_of_no_ok fun _ hok =>
    h (resolveDispute_ok_iff.1 hok).2.2.1

theorem fundInvoice_unauth {l : Ledger} {s : Address} {id v : Nat}
    (hc : (l.invoices id).client ≠ 0) (hs : (l.invoices id).client ≠ s) :
    fundInvoice l s id v = .error .onlyClientCanFund := by
  simp only [fundInvoice]
  rw [if_neg hc, if_pos hs]

theorem markInvoiceCompleted_unauth {l : Ledger} {s : Address} {id : Nat}
    (hf : (l.invoices id).freelancer ≠ 0)
    (hs : (l.invoices id).freelancer ≠ s) :
    markInvoiceCompleted l s id = .error .onlyFreelancerCanMark := by
  simp only [markInvoiceCompleted]
  rw [if_neg hf, if_pos hs]

theorem releasePayment_unauth {l : Ledger} {port : ValuePort} {s : Address}
    {id : Nat} (hc : (l.invoices id).client ≠ 0)
    (hs : (l.invoices id).client ≠ s) :
    releasePayment l port s id = .error .onlyClientCanRelease := by
  simp only [releasePayment]
  rw [if_neg hc, if_pos hs]

theorem cancelInvoice_unauth {l : Ledger} {s : Address} {id : Nat}
    (hc : (l.invoices id).client ≠ 0) (hs : (l.invoices id).client ≠ s) :
    cancelInvoice l s id = .error .onlyClientCanCancel := by
  simp only [cancelInvoice]
  rw [if_neg hc, if_pos hs]

theorem resolveDispute_unauth {l : Ledger} {port : ValuePort} {s : Address}
    {id : Nat} {b : Bool} (hs : s ≠ l.owner) :
    resolveDispute l port s id b = .error .ownableUnauthorizedAccount := by
  simp only [resolveDispute]
  rw [if_pos hs]

theorem fundInvoice_notfound {l : Ledger} {s : Address} {id v : Nat}
    (hc : (l.invoices id).client = 0) :
    fundInvoice l s id v = .error .invoiceDoesNotExist := by
  simp only [fundInvoice]
  rw [if_pos hc]

theorem markInvoiceCompleted_notfound {l : Ledger} {s : Address} {id : Nat}
    (hf : (l.invoices id).freelancer = 0) :
    markInvoiceCompleted l s id = .error .invoiceDoesNotExist := by
  simp only [markInvoiceCompleted]
  rw [if_pos hf]

theorem releasePayment_notfound {l : Ledger} {port : ValuePort} {s : Address}
    {id : Nat} (hc : (l.invoices id).client = 0) :
    releasePayment l port s id = .error .invoiceDoesNotExist := by
  simp only [releasePayment]
  rw [if_pos hc]

theorem cancelInvoice_notfound {l : Ledger} {s : Address} {id : Nat}
    (hc : (l.invoices id).client = 0) :
    cancelInvoice l s id = .error .invoiceDoesNotExist := by
  simp only [cancelInvoice]
  rw [if_pos hc]

theorem resolveDispute_notfound {l : Ledger} {port : ValuePort} {id : Nat}
    {b : Bool} (hc : (l.invoices id).client = 0) :
    resolveDispute l port l.owner id b = .error .invoiceDoesNotExist := by
  simp only [resolveDispute]
  rw [if_neg (by simp), if_pos hc]

/-- Every reachable configuration satisfies the storage and payout invariant. -/
theorem reach_inv {c : Config} (h : Reach c) : Inv c := by
  induction h with
  | init o ho =>
    exact ⟨⟨fun id hid => absurd hid (Nat.not_lt_zero id), fun id _ => rfl⟩,
      fun id => rfl⟩
  | step c port op h hs ih =>
    cases op with
    | create s f a d =>
      cases hE : createInvoice c.ledger s f a d with
      | ok p =>
        obtain ⟨l2, rid⟩ := p
        rw [applyOp_create_ok hE]
        exact Inv_create ih hs hE
      | error e =>
        rw [applyOp_create_err hE]; exact ih
    | fund s id v =>
      cases hE : fundInvoice c.ledger s id v with
      | ok l2 => rw [applyOp_fund_ok hE]; exact Inv_fund ih hE
      | error e => rw [applyOp_fund_err hE]; exact ih
    | complete s id =>
      cases hE : markInvoiceCompleted c.ledger s id with
      | ok l2 => rw [applyOp_complete_ok hE]; exact Inv_complete ih hE
      | error e => rw [applyOp_complete_err hE]; exact ih
    | release s id =>
      cases hE : releasePayment c.ledger port s id with
      | ok l2 => rw [applyOp_release_ok hE]; exact Inv_release ih hE
      | error e => rw [applyOp_release_err hE]; exact ih
    | cancel s id =>
      cases hE : cancelInvoice c.ledger s id with
      | ok l2 => rw [applyOp_cancel_ok hE]; exact Inv_cancel ih hE
      | error e => rw [applyOp_cancel_err hE]; exact ih
    | resolve s id b =>
      cases hE : resolveDispute c.ledger port s id b with
      | ok l2 => rw [applyOp_resolve_ok hE]; exact Inv_resolve ih hE
      | error e => rw [applyOp_resolve_err hE]; exact ih
    | deposit s v =>
      rw [applyOp_deposit]; exact Inv_deposit ih

/-! ### Reachability of the demo runs -/

theorem reach_demo0 : Reach demo0 := Reach.init 1 (by decide)

theorem reach_demo1 : Reach demo1 :=
  Reach.step demo0 portTrue (.create 2 3 5 "web work") reach_demo0 (by decide)

theorem reach_demo2 : Reach demo2 :=
  Reach.step demo1 portTrue (.fund 2 0 5) reach_demo1 (by decide)

theorem reach_demo3 : Reach demo3 :=
  Reach.step demo2 portTrue (.complete 3 0) reach_demo2 (by decide)

theorem reach_demo4 : Reach demo4 :=
  Reach.step demo3 portTrue (.release 2 0) reach_demo3 (by decide)

/-! ### Frame of a pure status write -/

theorem frame_setStatus (l : Ledger) (id : Nat) (st : InvoiceStatus) :
    Frame l (l.setStatus id st) id := by
  refine ⟨?_, ?_, ?_, ?_, ?_, fun j hj => setStatus_invoices_ne l id st hj,
    rfl, rfl⟩ <;> rw [setStatus_invoices_eq]

/-! ### Sequences of creations -/

theorem range_map_add (n c : Nat) :
    (List.range (n + 1)).map (· + c) = c :: (List.range n).map (· + (c + 1)) := by
  have h : ∀ x : Nat, x + 1 + c = x + (c + 1) := fun x => by omega
  simp [List.range_succ_eq_map, List.map_map, Function.comp, h]

theorem runCreates_spec {l : Ledger}
    {rs : List (Address × Address × Nat × String)} {l3 : Ledger}
    {ids : List Nat} (h : runCreates l rs = .ok (l3, ids)) :
    ids = (List.range rs.length).map (· + l.invoiceCounter) ∧
    l3.invoiceCounter = l.invoiceCounter + rs.length := by
  induction rs generalizing l ids with
  | nil =>
    simp only [runCreates, Except.ok.injEq, Prod.mk.injEq] at h
    obtain ⟨rfl, rfl⟩ := h
    simp
  | cons r rs ih =>
    simp only [runCreates] at h
    split at h
    · simp at h
    · rename_i l2 rid hE
      split at h
      · simp at h
      · rename_i l3x idsx hR
        simp only [Except.ok.injEq, Prod.mk.injEq] at h
        rcases h with ⟨h3, h4⟩
        subst h3
        rcases createInvoice_ok_iff.1 hE with ⟨_, _, _, _, hl2, hrid⟩
        have hcnt : l2.invoiceCounter = l.invoiceCounter + 1 := by
          rw [← hl2]; rfl
        rcases ih hR with ⟨hids, hc3⟩
        constructor
        · rw [← h4, hids, hcnt, List.length_cons, range_map_add, hrid]
        · rw [hc3, hcnt, List.length_cons]
          omega

/-- One-step characterization of every status change: a transaction that
changes the stored status of invoice `id` in a reachable configuration
traverses one of the six labeled edges of the state machine, performed by the
uniquely authorized caller from the required source status. -/
theorem step_status_edge {c : Config} {port : ValuePort} {op : Op} {id : Nat}
    (hr : Reach c)
    (hch : ((applyOp port c op).ledger.invoices id).status ≠
           (c.ledger.invoices id).status) :
    ((c.ledger.invoices id).status = .CREATED ∧
     ((applyOp port c op).ledger.invoices id).status = .FUNDED ∧
     op = .fund (c.ledger.invoices id).client id
       (c.ledger.invoices id).amount) ∨
    ((c.ledger.invoices id).status = .FUNDED ∧
     ((applyOp port c op).ledger.invoices id).status = .COMPLETED ∧
     op = .complete (c.ledger.invoices id).freelancer id) ∨
    ((c.ledger.invoices id).status = .COMPLETED ∧
     ((applyOp port c op).ledger.invoices id).status = .PAID ∧
     op = .release (c.ledger.invoices id).client id) ∨
    ((c.ledger.invoices id).status = .CREATED ∧
     ((applyOp port c op).ledger.invoices id).status = .CANCELLED ∧
     op = .cancel (c.ledger.invoices id).client id) ∨
    (((c.ledger.invoices id).status = .FUNDED ∨
      (c.ledger.invoices id).status = .COMPLETED) ∧
     ((applyOp port c op).ledger.invoices id).status = .PAID ∧
     op = .resolve c.ledger.owner id true) ∨
    (((c.ledger.invoices id).status = .FUNDED ∨
      (c.ledger.invoices id).status = .COMPLETED) ∧
     ((applyOp port c op).ledger.invoices id).status = .CANCELLED ∧
     op = .resolve c.ledger.owner id false) := by
  cases op with
  | create s f a d =>
    cases hE : createInvoice c.ledger s f a d with
    | error e => rw [applyOp_create_err hE] at hch; exact absurd rfl hch
    | ok p =>
      obtain ⟨l2, rid⟩ := p
      rcases createInvoice_ok_iff.1 hE with ⟨_, _, _, _, hl2, _⟩
      rw [applyOp_create_ok hE] at hch
      exfalso; apply hch
      rw [← hl2]
      show ((mapWrite c.ledger.invoices c.ledger.invoiceCounter
        { invoiceId := c.ledger.invoiceCounter, client := s, freelancer := f,
          amount := a, description := d, status := .CREATED }) id).status =
        (c.ledger.invoices id).status
      by_cases hji : id = c.ledger.invoiceCounter
      · rw [hji, mapWrite_eq, (reach_inv hr).1.2 c.ledger.invoiceCounter
          (le_refl _)]
        rfl
      · rw [mapWrite_ne _ _ _ hji]
  | fund s2 id2 v =>
    cases hE : fundInvoice c.ledger s2 id2 v with
    | error e => rw [applyOp_fund_err hE] at hch; exact absurd rfl hch
    | ok l2 =>
      rcases fundInvoice_ok_iff.1 hE with ⟨_, hcs, hst, hv, hl2⟩
      rw [applyOp_fund_ok hE] at hch ⊢
      by_cases hji : id = id2
      · subst hji
        refine Or.inl ⟨hst, ?_, ?_⟩
        · rw [← hl2]
          show ((c.ledger.setStatus id InvoiceStatus.FUNDED).invoices id).status
            = InvoiceStatus.FUNDED
          rw [setStatus_invoices_eq]
        · rw [hcs, ← hv]
      · exfalso; apply hch
        rw [← hl2]
        show ((c.ledger.setStatus id2 InvoiceStatus.FUNDED).invoices id).status
          = (c.ledger.invoices id).status
        rw [setStatus_invoices_ne _ _ _ hji]
  | complete s2 id2 =>
    cases hE : markInvoiceCompleted c.ledger s2 id2 with
    | error e => rw [applyOp_complete_err hE] at hch; exact absurd rfl hch
    | ok l2 =>
      rcases markInvoiceCompleted_ok_iff.1 hE with ⟨_, hfs, hst, hl2⟩
      rw [applyOp_complete_ok hE] at hch ⊢
      by_cases hji : id = id2
      · subst hji
        refine Or.inr (Or.inl ⟨hst, ?_, ?_⟩)
        · rw [← hl2, setStatus_invoices_eq]
        · rw [hfs]
      · exfalso; apply hch
        rw [← hl2, setStatus_invoices_ne _ _ _ hji]
  | release s2 id2 =>
    cases hE : releasePayment c.ledger port s2 id2 with
    | error e => rw [applyOp_release_err hE] at hch; exact absurd rfl hch
    | ok l2 =>
      rcases releasePayment_ok_iff.1 hE with ⟨_, hcs, hst, _, hl2⟩
      rw [applyOp_release_ok hE] at hch ⊢
      by_cases hji : id = id2
      · subst hji
        refine Or.inr (Or.inr (Or.inl ⟨hst, ?_, ?_⟩))
        · rw [← hl2]
          show ((c.ledger.setStatus id InvoiceStatus.PAID).invoices id).status
            = InvoiceStatus.PAID
          rw [setStatus_invoices_eq]
        · rw [hcs]
      · exfalso; apply hch
        rw [← hl2]
        show ((c.ledger.setStatus id2 InvoiceStatus.PAID).invoices id).status
          = (c.ledger.invoices id).status
        rw [setStatus_invoices_ne _ _ _ hji]
  | cancel s2 id2 =>
    cases hE : cancelInvoice c.ledger s2 id2 with
    | error e => rw [applyOp_cancel_err hE] at hch; exact absurd rfl hch
    | ok l2 =>
      rcases cancelInvoice_ok_iff.1 hE with ⟨_, hcs, hst, hl2⟩
      rw [applyOp_cancel_ok hE] at hch ⊢
      by_cases hji : id = id2
      · subst hji
        refine Or.inr (Or.inr (Or.inr (Or.inl ⟨hst, ?_, ?_⟩)))
        · rw [← hl2, setStatus_invoices_eq]
        · rw [hcs]
      · exfalso; apply hch
        rw [← hl2, setStatus_invoices_ne _ _ _ hji]
  | resolve s2 id2 b =>
    cases hE : resolveDispute c.ledger port s2 id2 b with
    | error e => rw [applyOp_resolve_err hE] at hch; exact absurd rfl hch
    | ok l2 =>
      rcases resolveDispute_ok_iff.1 hE with ⟨hown, _, hst, _, hl2⟩
      rw [applyOp_resolve_ok hE] at hch ⊢
      cases b with
      | true =>
        by_cases hji : id = id2
        · subst hji
          refine Or.inr (Or.inr (Or.inr (Or.inr (Or.inl ⟨hst, ?_, ?_⟩))))
          · rw [← hl2]
            show ((c.ledger.setStatus id
              (if true then InvoiceStatus.PAID else .CANCELLED)).invoices
                id).status = InvoiceStatus.PAID
            rw [setStatus_invoices_eq]
            rfl
          · rw [hown]
        · exfalso; apply hch
          rw [← hl2]
          show ((c.ledger.setStatus id2
            (if true then InvoiceStatus.PAID else .CANCELLED)).invoices
              id).status = (c.ledger.invoices id).status
          rw [setStatus_invoices_ne _ _ _ hji]
      | false =>
        by_cases hji : id = id2
        · subst hji
          refine Or.inr (Or.inr (Or.inr (Or.inr (Or.inr ⟨hst, ?_, ?_⟩))))
          · rw [← hl2]
            show ((c.ledger.setStatus id
              (if false then InvoiceStatus.PAID else .CANCELLED)).invoices
                id).status = InvoiceStatus.CANCELLED
            rw [setStatus_invoices_eq]
            rfl
          · rw [hown]
        · exfalso; apply hch
          rw [← hl2]
          show ((c.ledger.setStatus id2
            (if false then InvoiceStatus.PAID else .CANCELLED)).invoices
              id).status = (c.ledger.invoices id).status
          rw [setStatus_invoices_ne _ _ _ hji]
  | deposit s2 v =>
    rw [applyOp_deposit] at hch
    exact absurd rfl hch

/-! ### The claims -/

/-- C1: PAID and CANCELLED are terminal and payout is not repeatable — on an
invoice whose status is PAID or CANCELLED every transition call
(`fundInvoice`, `markInvoiceCompleted`, `releasePayment`, `cancelInvoice`,
`resolveDispute`) reverts and leaves the configuration unchanged, and every
invoice of a reachable configuration that is PAID has had the payout
primitive committed exactly once over its whole history. -/
theorem terminal_no_double_payout :
    (∀ (c : Config) (id : Nat),
       ((c.ledger.invoices id).status = .PAID ∨
        (c.ledger.invoices id).status = .CANCELLED) →
       (∀ port s v, (∃ e, fundInvoice c.ledger s id v = .error e) ∧
          applyOp port c (.fund s id v) = c) ∧
       (∀ port s, (∃ e, markInvoiceCompleted c.ledger s id = .error e) ∧
          applyOp port c (.complete s id) = c) ∧
       (∀ port s, (∃ e, releasePayment c.ledger port s id = .error e) ∧
          applyOp port c (.release s id) = c) ∧
       (∀ port s, (∃ e, cancelInvoice c.ledger s id = .error e) ∧
          applyOp port c (.cancel s id) = c) ∧
       (∀ port s b, (∃ e, resolveDispute c.ledger port s id b = .error e) ∧
          applyOp port c (.resolve s id b) = c)) ∧
    (∀ c, Reach c → ∀ id, (c.ledger.invoices id).status = .PAID →
       payoutCount id c.events = 1) := by
  constructor
  · intro c id hterm
    have h1 : (c.ledger.invoices id).status ≠ .CREATED := by
      rcases hterm with h | h <;> simp [h]
    have h2 : (c.ledger.invoices id).status ≠ .FUNDED := by
      rcases hterm with h | h <;> simp [h]
    have h3 : (c.ledger.invoices id).status ≠ .COMPLETED := by
      rcases hterm with h | h <;> simp [h]
    have h4 : ¬ ((c.ledger.invoices id).status = .FUNDED ∨
        (c.ledger.invoices id).status = .COMPLETED) := by
      rcases hterm with h | h <;> simp [h]
    refine ⟨fun port s v => ?_, fun port s => ?_, fun port s => ?_,
      fun port s => ?_, fun port s b => ?_⟩
    · obtain ⟨e, he⟩ := fundInvoice_err_status (s := s) (v := v) h1
      exact ⟨⟨e, he⟩, applyOp_fund_err he⟩
    · obtain ⟨e, he⟩ := markInvoiceCompleted_err_status (s := s) h2
      exact ⟨⟨e, he⟩, applyOp_complete_err he⟩
    · obtain ⟨e, he⟩ := @releasePayment_err_status c.ledger port s id h3
      exact ⟨⟨e, he⟩, applyOp_release_err he⟩
    · obtain ⟨e, he⟩ := cancelInvoice_err_status (s := s) h1
      exact ⟨⟨e, he⟩, applyOp_cancel_err he⟩
    · obtain ⟨e, he⟩ :=
        @resolveDispute_err_status c.ledger port s id b h4
      exact ⟨⟨e, he⟩, applyOp_resolve_err he⟩
  · intro c hr id hp
    have h := (reach_inv hr).2 id
    rw [hp] at h
    exact h

/-- C1 witness: the demo run ends with invoice 0 PAID; funding it again
reverts, cancelling it leaves the configuration unchanged, and its payout
history holds exactly one entry. -/
theorem terminal_no_double_payout_witness :
    ((demo4.ledger.invoices 0).status = .PAID ∨
     (demo4.ledger.invoices 0).status = .CANCELLED) ∧
    (∃ e, fundInvoice demo4.ledger 2 0 5 = .error e) ∧
    applyOp portTrue demo4 (.cancel 2 0) = demo4 ∧
    payoutCount 0 demo4.events = 1 := by
  have hterm : (demo4.ledger.invoices 0).status = .PAID ∨
      (demo4.ledger.invoices 0).status = .CANCELLED := Or.inl (by decide)
  have h1 := terminal_no_double_payout.1 demo4 0 hterm
  exact ⟨hterm, (h1.1 portTrue 2 5).1, (h1.2.2.2.1 portTrue 2).2,
    terminal_no_double_payout.2 demo4 reach_demo4 0 (by decide)⟩

/-- C2: authorization is exclusive per transition — on an existing invoice of
a reachable configuration, `fundInvoice`, `releasePayment` and
`cancelInvoice` revert with an Unauthorized-kind error for every caller other
than the client, `markInvoiceCompleted` for every caller other than the
freelancer, and `resolveDispute` for every caller other than the
arbiter (contract owner); each failing call leaves the configuration
unchanged. -/
theorem authorization_exclusive :
    ∀ c, Reach c → ∀ (id : Nat) (s : Address),
      (c.ledger.invoices id).client ≠ 0 →
      (s ≠ (c.ledger.invoices id).client →
        (∀ port v,
          fundInvoice c.ledger s id v = .error .onlyClientCanFund ∧
          Err.kind .onlyClientCanFund = .unauthorized ∧
          applyOp port c (.fund s id v) = c) ∧
        (∀ port,
          releasePayment c.ledger port s id = .error .onlyClientCanRelease ∧
          Err.kind .onlyClientCanRelease = .unauthorized ∧
          applyOp port c (.release s id) = c) ∧
        (∀ port,
          cancelInvoice c.ledger s id = .error .onlyClientCanCancel ∧
          Err.kind .onlyClientCanCancel = .unauthorized ∧
          applyOp port c (.cancel s id) = c)) ∧
      (s ≠ (c.ledger.invoices id).freelancer →
        ∀ port,
          markInvoiceCompleted c.ledger s id =
            .error .onlyFreelancerCanMark ∧
          Err.kind .onlyFreelancerCanMark = .unauthorized ∧
          applyOp port c (.complete s id) = c) ∧
      (s ≠ c.ledger.owner →
        ∀ port b,
          resolveDispute c.ledger port s id b =
            .error .ownableUnauthorizedAccount ∧
          Err.kind .ownableUnauthorizedAccount = .unauthorized ∧
          applyOp port c (.resolve s id b) = c) := by
  intro c hr id s hc
  have hL := (reach_inv hr).1
  have hf : (c.ledger.invoices id).freelancer ≠ 0 :=
    (hL.1 id (lt_counter_of_client_ne hL hc)).2.2.1
  refine ⟨fun hs => ⟨fun port v => ?_, fun port => ?_, fun port => ?_⟩,
    fun hs port => ?_, fun hs port b => ?_⟩
  · have he := fundInvoice_unauth (v := v) hc (fun h => hs h.symm)
    exact ⟨he, rfl, applyOp_fund_err he⟩
  · have he := @releasePayment_unauth c.ledger port s id hc (fun h => hs h.symm)
    exact ⟨he, rfl, applyOp_release_err he⟩
  · have he := cancelInvoice_unauth hc (fun h => hs h.symm)
    exact ⟨he, rfl, applyOp_cancel_err he⟩
  · have he := markInvoiceCompleted_unauth hf (fun h => hs h.symm)
    exact ⟨he, rfl, applyOp_complete_err he⟩
  · have he := @resolveDispute_unauth c.ledger port s id b hs
    exact ⟨he, rfl, applyOp_resolve_err he⟩

/-- C2 witness: on the created demo invoice (client 2, freelancer 3,
owner 1), the stranger 9 is rejected by funding, completion and dispute
resolution with the respective Unauthorized errors. -/
theorem authorization_exclusive_witness :
    fundInvoice demo1.ledger 9 0 5 = .error .onlyClientCanFund ∧
    markInvoiceCompleted demo1.ledger 9 0 = .error .onlyFreelancerCanMark ∧
    resolveDispute demo1.ledger portTrue 9 0 true =
      .error .ownableUnauthorizedAccount := by
  have h := authorization_exclusive demo1 reach_demo1 0 9 (by decide)
  exact ⟨((h.1 (by decide)).1 portTrue 5).1, (h.2.1 (by decide) portTrue).1,
    (h.2.2 (by decide) portTrue true).1⟩

/-- C3: transfer-failure atomicity for `releasePayment` and `resolveDispute` —
once the checks pass, the status write is committed before the value-transfer
primitive runs (the primitive is invoked on the already-mutated ledger, and
the outcome of the call is exactly the primitive's verdict on that mutated
state); if the primitive reports failure the whole call reverts and the
caller still observes the untransitioned invoice. -/
theorem transfer_atomicity :
    (∀ (l : Ledger) (port : ValuePort) (s : Address) (id : Nat),
       (l.invoices id).client ≠ 0 → (l.invoices id).client = s →
       (l.invoices id).status = .COMPLETED →
       ((l.setStatus id InvoiceStatus.PAID).invoices id).status = .PAID ∧
       releasePayment l port s id =
         (if port (l.setStatus id InvoiceStatus.PAID)
             (l.invoices id).freelancer (l.invoices id).amount
          then .ok { l.setStatus id InvoiceStatus.PAID with
                     balance := l.balance - (l.invoices id).amount }
          else .error .paymentTransferFailed)) ∧
    (∀ (l : Ledger) (port : ValuePort) (s : Address) (id : Nat) (b : Bool),
       s = l.owner → (l.invoices id).client ≠ 0 →
       ((l.invoices id).status = .FUNDED ∨
        (l.invoices id).status = .COMPLETED) →
       ((l.setStatus id (if b then .PAID else .CANCELLED)).invoices id).status
         = (if b then .PAID else .CANCELLED) ∧
       resolveDispute l port s id b =
         (if port (l.setStatus id (if b then .PAID else .CANCELLED))
             (if b then (l.invoices id).freelancer else (l.invoices id).client)
             (l.invoices id).amount
          then .ok { l.setStatus id (if b then .PAID else .CANCELLED) with
                     balance := l.balance - (l.invoices id).amount }
          else .error .disputeTransferFailed)) ∧
    (∀ (c : Config) (port : ValuePort) (s : Address) (id : Nat),
       releasePayment c.ledger port s id = .error .paymentTransferFailed →
       applyOp port c (.release s id) = c) ∧
    (∀ (c : Config) (port : ValuePort) (s : Address) (id : Nat) (b : Bool),
       resolveDispute c.ledger port s id b = .error .disputeTransferFailed →
       applyOp port c (.resolve s id b) = c) := by
  refine ⟨fun l port s id hc hs hst => ?_, fun l port s id b hs hc hst => ?_,
    fun c port s id h => applyOp_release_err h,
    fun c port s id b h => applyOp_resolve_err h⟩
  · constructor
    · rw [setStatus_invoices_eq]
    · simp only [releasePayment]
      rw [if_neg hc, if_neg (not_ne_iff.2 hs), if_neg (not_ne_iff.2 hst)]
  · constructor
    · rw [setStatus_invoices_eq]
    · simp only [resolveDispute]
      rw [if_neg (not_ne_iff.2 hs), if_neg hc, if_neg (not_not_intro hst)]

/-- C3 witness: with every low-level call failing, releasing the completed
demo invoice reverts with `paymentTransferFailed` and the configuration —
in particular invoice 0's COMPLETED status — is unchanged. -/
theorem transfer_atomicity_witness :
    ((demo3.ledger.setStatus 0 InvoiceStatus.PAID).invoices 0).status =
      .PAID ∧
    releasePayment demo3.ledger portFalse 2 0 =
      .error .paymentTransferFailed ∧
    applyOp portFalse demo3 (.release 2 0) = demo3 ∧
    (demo3.ledger.invoices 0).status = .COMPLETED := by
  have h1 := transfer_atomicity.1 demo3.ledger portFalse 2 0 (by decide)
    (by decide) (by decide)
  have h2 : releasePayment demo3.ledger portFalse 2 0 =
      .error .paymentTransferFailed := by
    rw [h1.2]; rfl
  exact ⟨h1.1, h2, transfer_atomicity.2.2.1 demo3 portFalse 2 0 h2,
    by decide⟩

/-- C4: state reachability — over reachable configurations, a transaction
makes an invoice PAID only from COMPLETED via the client's `releasePayment`
or from FUNDED/COMPLETED via the arbiter's `resolveDispute(true)`; makes it
CANCELLED only from CREATED via the client's `cancelInvoice` or from
FUNDED/COMPLETED via `resolveDispute(false)`; makes it COMPLETED only from
FUNDED via the freelancer's `markInvoiceCompleted`; and makes it FUNDED only
from CREATED via the client's exact-value `fundInvoice` — so PAID is reached
exactly along CREATED→FUNDED→COMPLETED→PAID or a dispute release, and
CANCELLED along CREATED→CANCELLED or a dispute refund. -/
theorem state_reachability :
    ∀ c, Reach c → ∀ (port : ValuePort) (op : Op) (id : Nat),
      (((applyOp port c op).ledger.invoices id).status = .PAID →
        (c.ledger.invoices id).status ≠ .PAID →
        ((c.ledger.invoices id).status = .COMPLETED ∧
          op = .release (c.ledger.invoices id).client id) ∨
        (((c.ledger.invoices id).status = .FUNDED ∨
          (c.ledger.invoices id).status = .COMPLETED) ∧
          op = .resolve c.ledger.owner id true)) ∧
      (((applyOp port c op).ledger.invoices id).status = .CANCELLED →
        (c.ledger.invoices id).status ≠ .CANCELLED →
        ((c.ledger.invoices id).status = .CREATED ∧
          op = .cancel (c.ledger.invoices id).client id) ∨
        (((c.ledger.invoices id).status = .FUNDED ∨
          (c.ledger.invoices id).status = .COMPLETED) ∧
          op = .resolve c.ledger.owner id false)) ∧
      (((applyOp port c op).ledger.invoices id).status = .COMPLETED →
        (c.ledger.invoices id).status ≠ .COMPLETED →
        (c.ledger.invoices id).status = .FUNDED ∧
          op = .complete (c.ledger.invoices id).freelancer id) ∧
      (((applyOp port c op).ledger.invoices id).status = .FUNDED →
        (c.ledger.invoices id).status ≠ .FUNDED →
        (c.ledger.invoices id).status = .CREATED ∧
          op = .fund (c.ledger.invoices id).client id
            (c.ledger.invoices id).amount) := by
  intro c hr port op id
  refine ⟨fun hnew hold => ?_, fun hnew hold => ?_, fun hnew hold => ?_,
    fun hnew hold => ?_⟩
  all_goals
    have hch : ((applyOp port c op).ledger.invoices id).status ≠
        (c.ledger.invoices id).status := by
      rw [hnew]; exact Ne.symm hold
  all_goals
    rcases step_status_edge hr hch with
      ⟨h1, h2, h3⟩ | ⟨h1, h2, h3⟩ | ⟨h1, h2, h3⟩ | ⟨h1, h2, h3⟩ |
      ⟨h1, h2, h3⟩ | ⟨h1, h2, h3⟩ <;>
    first
      | exact absurd (h2.symm.trans hnew) (by decide)
      | exact Or.inl ⟨h1, h3⟩
      | exact Or.inr ⟨h1, h3⟩
      | exact ⟨h1, h3⟩

/-- C4 witness: the demo release step turns invoice 0 from COMPLETED to PAID
and is classified as the client's `releasePayment` edge. -/
theorem state_reachability_witness :
    (demo3.ledger.invoices 0).status = .COMPLETED ∧
    Op.release 2 0 = .release (demo3.ledger.invoices 0).client 0 := by
  have h := (state_reachability demo3 reach_demo3 portTrue (.release 2 0) 0).1
    (by decide) (by decide)
  rcases h with ⟨h1, h2⟩ | ⟨h1, h2⟩
  · exact ⟨h1, h2⟩
  · exact absurd h2 (by decide)

/-- C5: exact funding — on an existing CREATED invoice called by its client,
`fundInvoice` succeeds exactly when the supplied value equals the invoice
amount (and then sets the status to FUNDED and credits the escrow); any other
value reverts with the amount-mismatch error, leaving the configuration —
status still CREATED, no funds held — unchanged. -/
theorem exact_funding :
    ∀ (c : Config) (id : Nat) (s : Address) (v : Nat),
      (c.ledger.invoices id).client ≠ 0 →
      (c.ledger.invoices id).client = s →
      (c.ledger.invoices id).status = .CREATED →
      ((∃ l2, fundInvoice c.ledger s id v = .ok l2) ↔
        v = (c.ledger.invoices id).amount) ∧
      (v = (c.ledger.invoices id).amount →
        fundInvoice c.ledger s id v =
          .ok { c.ledger.setStatus id InvoiceStatus.FUNDED with
                balance := c.ledger.balance + v } ∧
        ∀ port, ((applyOp port c (.fund s id v)).ledger.invoices id).status =
          .FUNDED) ∧
      (v ≠ (c.ledger.invoices id).amount →
        fundInvoice c.ledger s id v = .error .sentAmountMismatch ∧
        ∀ port, applyOp port c (.fund s id v) = c ∧
          ((applyOp port c (.fund s id v)).ledger.invoices id).status =
            .CREATED ∧
          (applyOp port c (.fund s id v)).ledger.balance =
            c.ledger.balance) := by
  intro c id s v hc hs hst
  refine ⟨⟨fun ⟨l2, h⟩ => (fundInvoice_ok_iff.1 h).2.2.2.1, fun hv =>
    ⟨_, fundInvoice_ok_iff.2 ⟨hc, hs, hst, hv, rfl⟩⟩⟩, fun hv => ?_,
    fun hv => ?_⟩
  · have heq := fundInvoice_ok_iff.2 ⟨hc, hs, hst, hv, rfl⟩
    refine ⟨heq, fun port => ?_⟩
    rw [applyOp_fund_ok heq]
    show ((c.ledger.setStatus id InvoiceStatus.FUNDED).invoices id).status =
      .FUNDED
    rw [setStatus_invoices_eq]
  · have he : fundInvoice c.ledger s id v = .error .sentAmountMismatch := by
      simp only [fundInvoice]
      rw [if_neg hc, if_neg (not_ne_iff.2 hs), if_neg (not_ne_iff.2 hst),
        if_pos hv]
    refine ⟨he, fun port => ?_⟩
    rw [applyOp_fund_err he]
    exact ⟨rfl, hst, rfl⟩

/-- C5 witness: on the freshly created demo invoice (amount 5), funding with
5 succeeds while funding with 4 reverts with the mismatch error and changes
nothing. -/
theorem exact_funding_witness :
    (∃ l2, fundInvoice demo1.ledger 2 0 5 = .ok l2) ∧
    fundInvoice demo1.ledger 2 0 4 = .error .sentAmountMismatch ∧
    applyOp portTrue demo1 (.fund 2 0 4) = demo1 := by
  have h5 := exact_funding demo1 0 2 5 (by decide) (by decide) (by decide)
  have h4 := exact_funding demo1 0 2 4 (by decide) (by decide) (by decide)
  exact ⟨h5.1.2 (by decide), (h4.2.2 (by decide)).1,
    ((h4.2.2 (by decide)).2 portTrue).1⟩

/-- C6 counterexample: the claim says every transition on a never-created id
fails with NotFound for every caller, but `resolveDispute` runs its
`onlyOwner` modifier before the existence check — at the freshly deployed
ledger (owner 1, no invoice ever created, so id 99 does not exist), caller 2
gets the Ownable Unauthorized error, not NotFound. -/
theorem notfound_precedence_counterexample :
    Reach (Config.init 1) ∧
    ((Config.init 1).ledger.invoices 99).client = 0 ∧
    (Config.init 1).ledger.invoiceCounter = 0 ∧
    resolveDispute (Config.init 1).ledger portTrue 2 99 true =
      .error .ownableUnauthorizedAccount ∧
    Err.kind .ownableUnauthorizedAccount = .unauthorized ∧
    Err.kind .ownableUnauthorizedAccount ≠ .notFound :=
  ⟨Reach.init 1 (by decide), rfl, rfl, by rfl, rfl, by decide⟩

/-- C6 amended: on a reachable configuration and a never-created id (id at or
above the counter), `fundInvoice`, `markInvoiceCompleted`, `releasePayment`
and `cancelInvoice` revert with NotFound for every caller, and
`resolveDispute` reverts with NotFound for the arbiter caller — but for any
caller other than the arbiter it reverts with the Ownable Unauthorized error
raised by the `onlyOwner` modifier, which precedes the existence check. -/
theorem notfound_precedence_amended :
    ∀ c, Reach c → ∀ id, c.ledger.invoiceCounter ≤ id →
      Err.kind .invoiceDoesNotExist = .notFound ∧
      (∀ s v, fundInvoice c.ledger s id v = .error .invoiceDoesNotExist) ∧
      (∀ s, markInvoiceCompleted c.ledger s id =
        .error .invoiceDoesNotExist) ∧
      (∀ port s, releasePayment c.ledger port s id =
        .error .invoiceDoesNotExist) ∧
      (∀ s, cancelInvoice c.ledger s id = .error .invoiceDoesNotExist) ∧
      (∀ port b, resolveDispute c.ledger port c.ledger.owner id b =
        .error .invoiceDoesNotExist) ∧
      (∀ port s b, s ≠ c.ledger.owner →
        resolveDispute c.ledger port s id b =
          .error .ownableUnauthorizedAccount ∧
        Err.kind .ownableUnauthorizedAccount = .unauthorized) := by
  intro c hr id hid
  have hz : c.ledger.invoices id = Invoice.zeroSlot := (reach_inv hr).1.2 id hid
  have hc : (c.ledger.invoices id).client = 0 := by rw [hz]; rfl
  have hf : (c.ledger.invoices id).freelancer = 0 := by rw [hz]; rfl
  exact ⟨rfl, fun s v => fundInvoice_notfound hc,
    fun s => markInvoiceCompleted_notfound hf,
    fun port s => releasePayment_notfound hc,
    fun s => cancelInvoice_notfound hc,
    fun port b => resolveDispute_notfound hc,
    fun port s b hs => ⟨resolveDispute_unauth hs, rfl⟩⟩

/-- C6 amended witness: on the demo configuration, funding never-created id
99 reverts with NotFound, and the arbiter's dispute resolution on id 99 also
reverts with NotFound. -/
theorem notfound_precedence_amended_witness :
    fundInvoice demo1.ledger 2 99 5 = .error .invoiceDoesNotExist ∧
    resolveDispute demo1.ledger portTrue 1 99 true =
      .error .invoiceDoesNotExist := by
  have h := notfound_precedence_amended demo1 reach_demo1 99 (by decide)
  exact ⟨h.2.1 2 5, h.2.2.2.2.2.1 portTrue true⟩

/-- C7: monotonic id minting — any run of successful `createInvoice` calls
from a freshly constructed ledger returns the ids 0, 1, 2, … in call order,
and `getTotalInvoices` afterwards returns the number of creations; moreover
`getTotalInvoices` reads nothing but the counter, so cancelled and paid
invoices stay counted. -/
theorem monotonic_ids :
    ∀ (initialOwner : Address)
      (rs : List (Address × Address × Nat × String))
      (l3 : Ledger) (ids : List Nat),
      runCreates (Ledger.init initialOwner) rs = .ok (l3, ids) →
      ids = List.range rs.length ∧
      getTotalInvoices l3 = rs.length ∧
      (∀ l4 : Ledger, getTotalInvoices l4 = l4.invoiceCounter) := by
  intro o rs l3 ids h
  rcases runCreates_spec h with ⟨hids, hcnt⟩
  refine ⟨?_, ?_, fun l4 => rfl⟩
  · rw [hids]
    simp [Ledger.init]
  · show l3.invoiceCounter = rs.length
    rw [hcnt]
    simp [Ledger.init]

/-- C7 witness: two concrete creations from a fresh ledger return ids 0 and 1
and leave the total at 2. -/
theorem monotonic_ids_witness :
    ([0, 1] : List Nat) = List.range 2 ∧
    getTotalInvoices (createdLedger (createdLedger (Ledger.init 1) 2 3 5 "a")
      4 5 7 "b") = 2 := by
  have h := monotonic_ids 1 demoReqs
    (createdLedger (createdLedger (Ledger.init 1) 2 3 5 "a") 4 5 7 "b")
    [0, 1] (by rfl)
  exact ⟨h.1, h.2.1⟩

/-- C8: frame condition — every successful transition call changes only the
status field of the target invoice: its id, client, freelancer, amount and
description are preserved, every other slot of the mapping is untouched, and
the counter and owner are untouched, so no invoice record is ever deleted. -/
theorem frame_condition :
    (∀ (l : Ledger) (s : Address) (id v : Nat) (l2 : Ledger),
       fundInvoice l s id v = .ok l2 → Frame l l2 id) ∧
    (∀ (l : Ledger) (s : Address) (id : Nat) (l2 : Ledger),
       markInvoiceCompleted l s id = .ok l2 → Frame l l2 id) ∧
    (∀ (l : Ledger) (port : ValuePort) (s : Address) (id : Nat) (l2 : Ledger),
       releasePayment l port s id = .ok l2 → Frame l l2 id) ∧
    (∀ (l : Ledger) (s : Address) (id : Nat) (l2 : Ledger),
       cancelInvoice l s id = .ok l2 → Frame l l2 id) ∧
    (∀ (l : Ledger) (port : ValuePort) (s : Address) (id : Nat) (b : Bool)
       (l2 : Ledger),
       resolveDispute l port s id b = .ok l2 → Frame l l2 id) := by
  refine ⟨fun l s id v l2 h => ?_, fun l s id l2 h => ?_,
    fun l port s id l2 h => ?_, fun l s id l2 h => ?_,
    fun l port s id b l2 h => ?_⟩
  · obtain ⟨_, _, _, _, hl2⟩ := fundInvoice_ok_iff.1 h
    rw [← hl2]
    exact frame_setStatus l id .FUNDED
  · obtain ⟨_, _, _, hl2⟩ := markInvoiceCompleted_ok_iff.1 h
    rw [← hl2]
    exact frame_setStatus l id .COMPLETED
  · obtain ⟨_, _, _, _, hl2⟩ := releasePayment_ok_iff.1 h
    rw [← hl2]
    exact frame_setStatus l id .PAID
  · obtain ⟨_, _, _, hl2⟩ := cancelInvoice_ok_iff.1 h
    rw [← hl2]
    exact frame_setStatus l id .CANCELLED
  · obtain ⟨_, _, _, _, hl2⟩ := resolveDispute_ok_iff.1 h
    rw [← hl2]
    exact frame_setStatus l id (if b then .PAID else .CANCELLED)

/-- C8 witness: the demo funding step preserves invoice 0's client and
amount, the counter, and the untouched slot 7. -/
theorem frame_condition_witness :
    (demo2.ledger.invoices 0).client = (demo1.ledger.invoices 0).client ∧
    (demo2.ledger.invoices 0).amount = (demo1.ledger.invoices 0).amount ∧
    demo2.ledger.invoices 7 = demo1.ledger.invoices 7 ∧
    demo2.ledger.invoiceCounter = demo1.ledger.invoiceCounter := by
  have h := frame_condition.1 demo1.ledger 2 0 5 demo2.ledger (by rfl)
  exact ⟨h.2.1, h.2.2.2.1, h.2.2.2.2.2.1 7 (by decide), h.2.2.2.2.2.2.1⟩

/-- C9: ledger well-formedness — in every reachable configuration, every id
below the counter stores an invoice whose `invoiceId` equals its key, whose
client and freelancer are nonzero, whose amount is positive and whose
description is non-empty; every id at or above the counter stores a slot
with zero client; hence the existence test `client ≠ 0` used by the
operations characterizes exactly the created invoices. -/
theorem ledger_well_formed :
    ∀ c, Reach c →
      (∀ id, id < c.ledger.invoiceCounter →
        (c.ledger.invoices id).invoiceId = id ∧
        (c.ledger.invoices id).client ≠ 0 ∧
        (c.ledger.invoices id).freelancer ≠ 0 ∧
        0 < (c.ledger.invoices id).amount ∧
        0 < (c.ledger.invoices id).description.length) ∧
      (∀ id, c.ledger.invoiceCounter ≤ id →
        (c.ledger.invoices id).client = 0) ∧
      (∀ id, (c.ledger.invoices id).client ≠ 0 ↔
        id < c.ledger.invoiceCounter) := by
  intro c hr
  have hL := (reach_inv hr).1
  refine ⟨fun id hid => hL.1 id hid,
    fun id hid => by rw [hL.2 id hid]; rfl,
    fun id => ⟨fun hc => lt_counter_of_client_ne hL hc,
      fun hid => (hL.1 id hid).2.1⟩⟩

/-- C9 witness: in the demo configuration, created invoice 0 has a nonzero
client and never-created id 5 fails the existence test. -/
theorem ledger_well_formed_witness :
    (demo1.ledger.invoices 0).client ≠ 0 ∧
    ((demo1.ledger.invoices 5).client ≠ 0 ↔
      5 < demo1.ledger.invoiceCounter) := by
  have h := ledger_well_formed demo1 reach_demo1
  exact ⟨(h.1 0 (by decide)).2.1, h.2.2 5⟩

/-- C10: self-dealing is permitted — `createInvoice` never requires the
freelancer to differ from the caller: principal 1 creates an invoice on
itself (client = freelancer = 1), then alone funds it, marks it completed
and releases it, driving it to PAID with the payout sent to itself. -/
theorem self_dealing :
    (∃ p, createInvoice selfC0.ledger 1 1 5 "self" = .ok p) ∧
    (selfC1.ledger.invoices 0).client = 1 ∧
    (selfC1.ledger.invoices 0).freelancer = 1 ∧
    (∃ l2, fundInvoice selfC1.ledger 1 0 5 = .ok l2) ∧
    (∃ l3, markInvoiceCompleted selfC2.ledger 1 0 = .ok l3) ∧
    (∃ l4, releasePayment selfC3.ledger portTrue 1 0 = .ok l4) ∧
    (selfC4.ledger.invoices 0).status = .PAID ∧
    selfC4.events = [Ev.payout 0 1 5] :=
  ⟨⟨(selfC1.ledger, 0), rfl⟩, rfl, rfl, ⟨selfC2.ledger, rfl⟩,
    ⟨selfC3.ledger, rfl⟩, ⟨selfC4.ledger, rfl⟩, rfl, rfl⟩

end InvoiceEscrow
